import Mathlib

/-!
Shallow embedding of the http-responses library.

Sources embedded:
- `src/index.ts`: class `HttpResponse` and the full variant catalog exported
  from the package root (namespace `Index` below);
- `src/responses.ts`: class `HttpResponse` and the success/redirect variant
  catalog (namespace `Responses` below);
- `src/unnamed/part_001` (the error-family module): class `HttpError` extending
  the native `Error`, and the error variant catalog (namespace `Errors` below).

Modelling conventions:
- TypeScript `number` status codes become `Int`; optional string parameters
  become `Option String` (`none` = the argument was omitted / `undefined`).
- The external registry `http-status-codes` (`HttpStatus.getStatusText`) is an
  external collaborator: it is modelled as an abstract `Registry : Int → Option String`,
  where `none` models the lookup throwing (code not registered, or any other
  fault).  All theorems quantify over the registry.
- JavaScript `a || b` on strings is falsy exactly on `undefined` and `""`;
  it is embedded by `jsOr` / `jsOrE` below.
- The `try { this.status = status || getStatusText(code) } catch (e) { this.status = 'Unknown' }`
  block is embedded by running the truthiness choice in `Except Unit String`
  (the lookup is the only fallible step) and mapping any error to `"Unknown"`.
-/

/-- The TypeScript `interface Options` shared verbatim by `src/index.ts`,
`src/responses.ts` and the error-family module: `statusCode: number` is a
required field; `message?: string` and `status?: string` are optional. -/
structure Options where
  statusCode : Int
  message : Option String
  status : Option String
deriving Repr, DecidableEq

/-- An options object as it would arrive before the TypeScript type checker
has enforced `interface Options`: every field, `statusCode` included, may be
absent. -/
structure RawOptions where
  statusCode : Option Int
  message : Option String
  status : Option String
deriving Repr, DecidableEq

/-- Embeds the static contract of `interface Options` (src/index.ts lines 3-7):
an options object lacking `statusCode` is rejected with `InvalidInput` (in the
source this is the TypeScript type error for the missing mandatory field),
while `message` and `status` may be freely absent. -/
def checkOptions (raw : RawOptions) : Except String Options :=
  match raw.statusCode with
  | some c => Except.ok ⟨c, raw.message, raw.status⟩
  | none => Except.error "InvalidInput"

/-- The external status registry (`http-status-codes`): a mapping from status
code to canonical label.  `none` models `getStatusText` throwing for a code it
does not know (or any other fault of the lookup). -/
def Registry : Type := Int → Option String

/-- `HttpStatus.getStatusText(code)` run inside a `try`: either the registry
label, or an error (the thrown exception) to be caught by the caller. -/
def getStatusText (reg : Registry) (code : Int) : Except Unit String :=
  match reg code with
  | some label => Except.ok label
  | none => Except.error ()

/-- JavaScript `a || b` where `a : string | undefined` and `b` is an ordinary
string: `a` is taken iff it is present and non-empty (truthy). -/
def jsOr (a : Option String) (b : String) : String :=
  match a with
  | some s => if s = "" then b else s
  | none => b

/-- JavaScript `a || b` where `a : string | undefined` and `b` is a fallible
computation (`getStatusText`): `b` runs, and can throw, only when `a` is
absent or empty. -/
def jsOrE (a : Option String) (b : Except Unit String) : Except Unit String :=
  match a with
  | some s => if s = "" then b else Except.ok s
  | none => b

namespace Index

/-- The record produced by `class HttpResponse` of `src/index.ts`:
`statusCode`, `message` and `status` are its three public readonly fields. -/
structure HttpResponse where
  statusCode : Int
  message : String
  status : String
deriving Repr, DecidableEq

/-- Embeds the constructor of `HttpResponse` (src/index.ts lines 13-22):
`status` is `options.status || getStatusText(options.statusCode)` with any
thrown lookup error caught and replaced by `"Unknown"`; then `message` is
`options.message || this.status`; then `statusCode` is stored verbatim. -/
def HttpResponse.construct (reg : Registry) (options : Options) : HttpResponse :=
  let status :=
    match jsOrE options.status (getStatusText reg options.statusCode) with
    | Except.ok s => s
    | Except.error _ => "Unknown"
  let message := jsOr options.message status
  ⟨options.statusCode, message, status⟩

/-- `class Continue extends HttpResponse` of `src/index.ts`: fixes `statusCode := 100`,
forwards `message` only; no `status` parameter exists, so `status` is always
absent in the forwarded options. -/
def Continue (reg : Registry) (message : Option String) : HttpResponse :=
  HttpResponse.construct reg ⟨100, message, none⟩

/-- `class Created extends HttpResponse` of `src/index.ts`: fixes `statusCode := 201`,
forwards `message` only; no `status` parameter exists, so `status` is always
absent in the forwarded options. -/
def Created (reg : Registry) (message : Option String) : HttpResponse :=
  HttpResponse.construct reg ⟨201, message, none⟩

/-- `class MovedPermanently extends HttpResponse` of `src/index.ts`: fixes `statusCode := 301`,
forwards `message` only; no `status` parameter exists, so `status` is always
absent in the forwarded options. -/
def MovedPermanently (reg : Registry) (message : Option String) : HttpResponse :=
  HttpResponse.construct reg ⟨301, message, none⟩

/-- `class MovedTemporarily extends HttpResponse` of `src/index.ts`: fixes `statusCode := 302`,
forwards `message` only; no `status` parameter exists, so `status` is always
absent in the forwarded options. -/
def MovedTemporarily (reg : Registry) (message : Option String) : HttpResponse :=
  HttpResponse.construct reg ⟨302, message, none⟩

/-- `class MultiStatus extends HttpResponse` of `src/index.ts`: fixes `statusCode := 207`,
forwards `message` only; no `status` parameter exists, so `status` is always
absent in the forwarded options. -/
def MultiStatus (reg : Registry) (message : Option String) : HttpResponse :=
  HttpResponse.construct reg ⟨207, message, none⟩

/-- `class MultipleChoices extends HttpResponse` of `src/index.ts`: fixes `statusCode := 300`,
forwards `message` only; no `status` parameter exists, so `status` is always
absent in the forwarded options. -/
def MultipleChoices (reg : Registry) (message : Option String) : HttpResponse :=
  HttpResponse.construct reg ⟨300, message, none⟩

/-- `class NoContent extends HttpResponse` of `src/index.ts`: fixes `statusCode := 204`,
forwards `message` only; no `status` parameter exists, so `status` is always
absent in the forwarded options. -/
def NoContent (reg : Registry) (message : Option String) : HttpResponse :=
  HttpResponse.construct reg ⟨204, message, none⟩

/-- `class NonAuthoritativeInformation extends HttpResponse` of `src/index.ts`: fixes `statusCode := 203`,
forwards `message` only; no `status` parameter exists, so `status` is always
absent in the forwarded options. -/
def NonAuthoritativeInformation (reg : Registry) (message : Option String) : HttpResponse :=
  HttpResponse.construct reg ⟨203, message, none⟩

/-- `class NotModified extends HttpResponse` of `src/index.ts`: fixes `statusCode := 304`,
forwards `message` only; no `status` parameter exists, so `status` is always
absent in the forwarded options. -/
def NotModified (reg : Registry) (message : Option String) : HttpResponse :=
  HttpResponse.construct reg ⟨304, message, none⟩

/-- `class Success extends HttpResponse` of `src/index.ts`: fixes `statusCode := 200`,
forwards `message` only; no `status` parameter exists, so `status` is always
absent in the forwarded options. -/
def Success (reg : Registry) (message : Option String) : HttpResponse :=
  HttpResponse.construct reg ⟨200, message, none⟩

/-- `class PartialContent extends HttpResponse` of `src/index.ts`: fixes `statusCode := 206`,
forwards `message` only; no `status` parameter exists, so `status` is always
absent in the forwarded options. -/
def PartialContent (reg : Registry) (message : Option String) : HttpResponse :=
  HttpResponse.construct reg ⟨206, message, none⟩

/-- `class PermanentRedirect extends HttpResponse` of `src/index.ts`: fixes `statusCode := 308`,
forwards `message` only; no `status` parameter exists, so `status` is always
absent in the forwarded options. -/
def PermanentRedirect (reg : Registry) (message : Option String) : HttpResponse :=
  HttpResponse.construct reg ⟨308, message, none⟩

/-- `class Processing extends HttpResponse` of `src/index.ts`: fixes `statusCode := 102`,
forwards `message` only; no `status` parameter exists, so `status` is always
absent in the forwarded options. -/
def Processing (reg : Registry) (message : Option String) : HttpResponse :=
  HttpResponse.construct reg ⟨102, message, none⟩

/-- `class ResetContent extends HttpResponse` of `src/index.ts`: fixes `statusCode := 205`,
forwards `message` only; no `status` parameter exists, so `status` is always
absent in the forwarded options. -/
def ResetContent (reg : Registry) (message : Option String) : HttpResponse :=
  HttpResponse.construct reg ⟨205, message, none⟩

/-- `class SeeOther extends HttpResponse` of `src/index.ts`: fixes `statusCode := 303`,
forwards `message` only; no `status` parameter exists, so `status` is always
absent in the forwarded options. -/
def SeeOther (reg : Registry) (message : Option String) : HttpResponse :=
  HttpResponse.construct reg ⟨303, message, none⟩

/-- `class SwitchingProtocols extends HttpResponse` of `src/index.ts`: fixes `statusCode := 101`,
forwards `message` only; no `status` parameter exists, so `status` is always
absent in the forwarded options. -/
def SwitchingProtocols (reg : Registry) (message : Option String) : HttpResponse :=
  HttpResponse.construct reg ⟨101, message, none⟩

/-- `class TemporaryRedirect extends HttpResponse` of `src/index.ts`: fixes `statusCode := 307`,
forwards `message` only; no `status` parameter exists, so `status` is always
absent in the forwarded options. -/
def TemporaryRedirect (reg : Registry) (message : Option String) : HttpResponse :=
  HttpResponse.construct reg ⟨307, message, none⟩

/-- `class BadGateway extends HttpResponse` of `src/index.ts`: fixes `statusCode := 502`,
forwards `message` and `status`. -/
def BadGateway (reg : Registry) (message status : Option String) : HttpResponse :=
  HttpResponse.construct reg ⟨502, message, status⟩

/-- `class BadRequest extends HttpResponse` of `src/index.ts`: fixes `statusCode := 400`,
forwards `message` and `status`. -/
def BadRequest (reg : Registry) (message status : Option String) : HttpResponse :=
  HttpResponse.construct reg ⟨400, message, status⟩

/-- `class Conflict extends HttpResponse` of `src/index.ts`: fixes `statusCode := 409`,
forwards `message` and `status`. -/
def Conflict (reg : Registry) (message status : Option String) : HttpResponse :=
  HttpResponse.construct reg ⟨409, message, status⟩

/-- `class ExpectationFailed extends HttpResponse` of `src/index.ts`: fixes `statusCode := 417`,
forwards `message` and `status`. -/
def ExpectationFailed (reg : Registry) (message status : Option String) : HttpResponse :=
  HttpResponse.construct reg ⟨417, message, status⟩

/-- `class FailedDependency extends HttpResponse` of `src/index.ts`: fixes `statusCode := 424`,
forwards `message` and `status`. -/
def FailedDependency (reg : Registry) (message status : Option String) : HttpResponse :=
  HttpResponse.construct reg ⟨424, message, status⟩

/-- `class Forbidden extends HttpResponse` of `src/index.ts`: fixes `statusCode := 403`,
forwards `message` and `status`. -/
def Forbidden (reg : Registry) (message status : Option String) : HttpResponse :=
  HttpResponse.construct reg ⟨403, message, status⟩

/-- `class GatewayTimeout extends HttpResponse` of `src/index.ts`: fixes `statusCode := 504`,
forwards `message` and `status`. -/
def GatewayTimeout (reg : Registry) (message status : Option String) : HttpResponse :=
  HttpResponse.construct reg ⟨504, message, status⟩

/-- `class Gone extends HttpResponse` of `src/index.ts`: fixes `statusCode := 410`,
forwards `message` and `status`. -/
def Gone (reg : Registry) (message status : Option String) : HttpResponse :=
  HttpResponse.construct reg ⟨410, message, status⟩

/-- `class HttpVersionNotSupported extends HttpResponse` of `src/index.ts`: fixes `statusCode := 410`,
forwards `message` and `status`. -/
def HttpVersionNotSupported (reg : Registry) (message status : Option String) : HttpResponse :=
  HttpResponse.construct reg ⟨410, message, status⟩

/-- `class ImATeapot extends HttpResponse` of `src/index.ts`: fixes `statusCode := 418`,
forwards `message` and `status`. -/
def ImATeapot (reg : Registry) (message status : Option String) : HttpResponse :=
  HttpResponse.construct reg ⟨418, message, status⟩

/-- `class InsufficientSpaceOnResource extends HttpResponse` of `src/index.ts`: fixes `statusCode := 419`,
forwards `message` and `status`. -/
def InsufficientSpaceOnResource (reg : Registry) (message status : Option String) : HttpResponse :=
  HttpResponse.construct reg ⟨419, message, status⟩

/-- `class InsufficientStorage extends HttpResponse` of `src/index.ts`: fixes `statusCode := 419`,
forwards `message` and `status`. -/
def InsufficientStorage (reg : Registry) (message status : Option String) : HttpResponse :=
  HttpResponse.construct reg ⟨419, message, status⟩

/-- `class InternalServerError extends HttpResponse` of `src/index.ts`: fixes `statusCode := 500`,
forwards `message` and `status`. -/
def InternalServerError (reg : Registry) (message status : Option String) : HttpResponse :=
  HttpResponse.construct reg ⟨500, message, status⟩

/-- `class LengthRequired extends HttpResponse` of `src/index.ts`: fixes `statusCode := 411`,
forwards `message` and `status`. -/
def LengthRequired (reg : Registry) (message status : Option String) : HttpResponse :=
  HttpResponse.construct reg ⟨411, message, status⟩

/-- `class Locked extends HttpResponse` of `src/index.ts`: fixes `statusCode := 423`,
forwards `message` and `status`. -/
def Locked (reg : Registry) (message status : Option String) : HttpResponse :=
  HttpResponse.construct reg ⟨423, message, status⟩

/-- `class MethodNotAllowed extends HttpResponse` of `src/index.ts`: fixes `statusCode := 405`,
forwards `message` and `status`. -/
def MethodNotAllowed (reg : Registry) (message status : Option String) : HttpResponse :=
  HttpResponse.construct reg ⟨405, message, status⟩

/-- `class NetworkAuthenticationRequired extends HttpResponse` of `src/index.ts`: fixes `statusCode := 511`,
forwards `message` and `status`. -/
def NetworkAuthenticationRequired (reg : Registry) (message status : Option String) : HttpResponse :=
  HttpResponse.construct reg ⟨511, message, status⟩

/-- `class NotAcceptable extends HttpResponse` of `src/index.ts`: fixes `statusCode := 406`,
forwards `message` and `status`. -/
def NotAcceptable (reg : Registry) (message status : Option String) : HttpResponse :=
  HttpResponse.construct reg ⟨406, message, status⟩

/-- `class NotFound extends HttpResponse` of `src/index.ts`: fixes `statusCode := 404`,
forwards `message` and `status`. -/
def NotFound (reg : Registry) (message status : Option String) : HttpResponse :=
  HttpResponse.construct reg ⟨404, message, status⟩

/-- `class NotImplemented extends HttpResponse` of `src/index.ts`: fixes `statusCode := 501`,
forwards `message` and `status`. -/
def NotImplemented (reg : Registry) (message status : Option String) : HttpResponse :=
  HttpResponse.construct reg ⟨501, message, status⟩

/-- `class PaymentRequired extends HttpResponse` of `src/index.ts`: fixes `statusCode := 402`,
forwards `message` and `status`. -/
def PaymentRequired (reg : Registry) (message status : Option String) : HttpResponse :=
  HttpResponse.construct reg ⟨402, message, status⟩

/-- `class PreconditionFailed extends HttpResponse` of `src/index.ts`: fixes `statusCode := 412`,
forwards `message` and `status`. -/
def PreconditionFailed (reg : Registry) (message status : Option String) : HttpResponse :=
  HttpResponse.construct reg ⟨412, message, status⟩

/-- `class PreconditionRequired extends HttpResponse` of `src/index.ts`: fixes `statusCode := 428`,
forwards `message` and `status`. -/
def PreconditionRequired (reg : Registry) (message status : Option String) : HttpResponse :=
  HttpResponse.construct reg ⟨428, message, status⟩

/-- `class ProxyAuthenticationRequired extends HttpResponse` of `src/index.ts`: fixes `statusCode := 407`,
forwards `message` and `status`. -/
def ProxyAuthenticationRequired (reg : Registry) (message status : Option String) : HttpResponse :=
  HttpResponse.construct reg ⟨407, message, status⟩

/-- `class RequestHeaderFieldsTooLarge extends HttpResponse` of `src/index.ts`: fixes `statusCode := 431`,
forwards `message` and `status`. -/
def RequestHeaderFieldsTooLarge (reg : Registry) (message status : Option String) : HttpResponse :=
  HttpResponse.construct reg ⟨431, message, status⟩

/-- `class RequestTimeout extends HttpResponse` of `src/index.ts`: fixes `statusCode := 408`,
forwards `message` and `status`. -/
def RequestTimeout (reg : Registry) (message status : Option String) : HttpResponse :=
  HttpResponse.construct reg ⟨408, message, status⟩

/-- `class RequestTooLong extends HttpResponse` of `src/index.ts`: fixes `statusCode := 413`,
forwards `message` and `status`. -/
def RequestTooLong (reg : Registry) (message status : Option String) : HttpResponse :=
  HttpResponse.construct reg ⟨413, message, status⟩

/-- `class RequestURITooLong extends HttpResponse` of `src/index.ts`: fixes `statusCode := 414`,
forwards `message` and `status`. -/
def RequestURITooLong (reg : Registry) (message status : Option String) : HttpResponse :=
  HttpResponse.construct reg ⟨414, message, status⟩

/-- `class RequestedRangeNotSatisfiable extends HttpResponse` of `src/index.ts`: fixes `statusCode := 416`,
forwards `message` and `status`. -/
def RequestedRangeNotSatisfiable (reg : Registry) (message status : Option String) : HttpResponse :=
  HttpResponse.construct reg ⟨416, message, status⟩

/-- `class ServiceUnavailable extends HttpResponse` of `src/index.ts`: fixes `statusCode := 503`,
forwards `message` and `status`. -/
def ServiceUnavailable (reg : Registry) (message status : Option String) : HttpResponse :=
  HttpResponse.construct reg ⟨503, message, status⟩

/-- `class TooManyRequests extends HttpResponse` of `src/index.ts`: fixes `statusCode := 429`,
forwards `message` and `status`. -/
def TooManyRequests (reg : Registry) (message status : Option String) : HttpResponse :=
  HttpResponse.construct reg ⟨429, message, status⟩

/-- `class Unauthorized extends HttpResponse` of `src/index.ts`: fixes `statusCode := 401`,
forwards `message` and `status`. -/
def Unauthorized (reg : Registry) (message status : Option String) : HttpResponse :=
  HttpResponse.construct reg ⟨401, message, status⟩

/-- `class UnprocessableEntity extends HttpResponse` of `src/index.ts`: fixes `statusCode := 422`,
forwards `message` and `status`. -/
def UnprocessableEntity (reg : Registry) (message status : Option String) : HttpResponse :=
  HttpResponse.construct reg ⟨422, message, status⟩

/-- `class UnsupportedMediaType extends HttpResponse` of `src/index.ts`: fixes `statusCode := 415`,
forwards `message` and `status`. -/
def UnsupportedMediaType (reg : Registry) (message status : Option String) : HttpResponse :=
  HttpResponse.construct reg ⟨415, message, status⟩

end Index

namespace Responses

/-- The record produced by `class HttpResponse` of `src/responses.ts` (same
field shape as the one in `src/index.ts`). -/
structure HttpResponse where
  statusCode : Int
  message : String
  status : String
deriving Repr, DecidableEq

/-- Embeds the constructor of `HttpResponse` (src/responses.ts lines 13-22);
textually identical to the one in `src/index.ts`. -/
def HttpResponse.construct (reg : Registry) (options : Options) : HttpResponse :=
  let status :=
    match jsOrE options.status (getStatusText reg options.statusCode) with
    | Except.ok s => s
    | Except.error _ => "Unknown"
  let message := jsOr options.message status
  ⟨options.statusCode, message, status⟩

/-- `class Continue extends HttpResponse` of `src/responses.ts`: fixes `statusCode := 100`,
forwards `message` only; no `status` parameter exists, so `status` is always
absent in the forwarded options. -/
def Continue (reg : Registry) (message : Option String) : HttpResponse :=
  HttpResponse.construct reg ⟨100, message, none⟩

/-- `class Created extends HttpResponse` of `src/responses.ts`: fixes `statusCode := 201`,
forwards `message` only; no `status` parameter exists, so `status` is always
absent in the forwarded options. -/
def Created (reg : Registry) (message : Option String) : HttpResponse :=
  HttpResponse.construct reg ⟨201, message, none⟩

/-- `class MovedPermanently extends HttpResponse` of `src/responses.ts`: fixes `statusCode := 301`,
forwards `message` only; no `status` parameter exists, so `status` is always
absent in the forwarded options. -/
def MovedPermanently (reg : Registry) (message : Option String) : HttpResponse :=
  HttpResponse.construct reg ⟨301, message, none⟩

/-- `class MovedTemporarily extends HttpResponse` of `src/responses.ts`: fixes `statusCode := 302`,
forwards `message` only; no `status` parameter exists, so `status` is always
absent in the forwarded options. -/
def MovedTemporarily (reg : Registry) (message : Option String) : HttpResponse :=
  HttpResponse.construct reg ⟨302, message, none⟩

/-- `class MultiStatus extends HttpResponse` of `src/responses.ts`: fixes `statusCode := 207`,
forwards `message` only; no `status` parameter exists, so `status` is always
absent in the forwarded options. -/
def MultiStatus (reg : Registry) (message : Option String) : HttpResponse :=
  HttpResponse.construct reg ⟨207, message, none⟩

/-- `class MultipleChoices extends HttpResponse` of `src/responses.ts`: fixes `statusCode := 300`,
forwards `message` only; no `status` parameter exists, so `status` is always
absent in the forwarded options. -/
def MultipleChoices (reg : Registry) (message : Option String) : HttpResponse :=
  HttpResponse.construct reg ⟨300, message, none⟩

/-- `class NoContent extends HttpResponse` of `src/responses.ts`: fixes `statusCode := 204`,
forwards `message` only; no `status` parameter exists, so `status` is always
absent in the forwarded options. -/
def NoContent (reg : Registry) (message : Option String) : HttpResponse :=
  HttpResponse.construct reg ⟨204, message, none⟩

/-- `class NonAuthoritativeInformation extends HttpResponse` of `src/responses.ts`: fixes `statusCode := 203`,
forwards `message` only; no `status` parameter exists, so `status` is always
absent in the forwarded options. -/
def NonAuthoritativeInformation (reg : Registry) (message : Option String) : HttpResponse :=
  HttpResponse.construct reg ⟨203, message, none⟩

/-- `class NotModified extends HttpResponse` of `src/responses.ts`: fixes `statusCode := 304`,
forwards `message` only; no `status` parameter exists, so `status` is always
absent in the forwarded options. -/
def NotModified (reg : Registry) (message : Option String) : HttpResponse :=
  HttpResponse.construct reg ⟨304, message, none⟩

/-- `class Success extends HttpResponse` of `src/responses.ts`: fixes `statusCode := 200`,
forwards `message` only; no `status` parameter exists, so `status` is always
absent in the forwarded options. -/
def Success (reg : Registry) (message : Option String) : HttpResponse :=
  HttpResponse.construct reg ⟨200, message, none⟩

/-- `class PartialContent extends HttpResponse` of `src/responses.ts`: fixes `statusCode := 206`,
forwards `message` only; no `status` parameter exists, so `status` is always
absent in the forwarded options. -/
def PartialContent (reg : Registry) (message : Option String) : HttpResponse :=
  HttpResponse.construct reg ⟨206, message, none⟩

/-- `class PermanentRedirect extends HttpResponse` of `src/responses.ts`: fixes `statusCode := 308`,
forwards `message` only; no `status` parameter exists, so `status` is always
absent in the forwarded options. -/
def PermanentRedirect (reg : Registry) (message : Option String) : HttpResponse :=
  HttpResponse.construct reg ⟨308, message, none⟩

/-- `class Processing extends HttpResponse` of `src/responses.ts`: fixes `statusCode := 102`,
forwards `message` only; no `status` parameter exists, so `status` is always
absent in the forwarded options. -/
def Processing (reg : Registry) (message : Option String) : HttpResponse :=
  HttpResponse.construct reg ⟨102, message, none⟩

/-- `class ResetContent extends HttpResponse` of `src/responses.ts`: fixes `statusCode := 205`,
forwards `message` only; no `status` parameter exists, so `status` is always
absent in the forwarded options. -/
def ResetContent (reg : Registry) (message : Option String) : HttpResponse :=
  HttpResponse.construct reg ⟨205, message, none⟩

/-- `class SeeOther extends HttpResponse` of `src/responses.ts`: fixes `statusCode := 303`,
forwards `message` only; no `status` parameter exists, so `status` is always
absent in the forwarded options. -/
def SeeOther (reg : Registry) (message : Option String) : HttpResponse :=
  HttpResponse.construct reg ⟨303, message, none⟩

/-- `class SwitchingProtocols extends HttpResponse` of `src/responses.ts`: fixes `statusCode := 101`,
forwards `message` only; no `status` parameter exists, so `status` is always
absent in the forwarded options. -/
def SwitchingProtocols (reg : Registry) (message : Option String) : HttpResponse :=
  HttpResponse.construct reg ⟨101, message, none⟩

/-- `class TemporaryRedirect extends HttpResponse` of `src/responses.ts`: fixes `statusCode := 307`,
forwards `message` only; no `status` parameter exists, so `status` is always
absent in the forwarded options. -/
def TemporaryRedirect (reg : Registry) (message : Option String) : HttpResponse :=
  HttpResponse.construct reg ⟨307, message, none⟩

end Responses

namespace Errors

/-- The record produced by `class HttpError extends Error` of the error-family
module (src/unnamed/part_001): the same three public readonly fields; the
`Error`-superclass call carries no data relevant to them. -/
structure HttpError where
  statusCode : Int
  message : String
  status : String
deriving Repr, DecidableEq

/-- Embeds the constructor of `HttpError` (src/unnamed/part_001 lines 57-67):
after `super()`, the body is textually identical to the `HttpResponse`
constructor of `src/index.ts`. -/
def HttpError.construct (reg : Registry) (options : Options) : HttpError :=
  let status :=
    match jsOrE options.status (getStatusText reg options.statusCode) with
    | Except.ok s => s
    | Except.error _ => "Unknown"
  let message := jsOr options.message status
  ⟨options.statusCode, message, status⟩

/-- `class BadGateway extends HttpError` of the error-family module: fixes `statusCode := 502`,
forwards `message` and `status`. -/
def BadGateway (reg : Registry) (message status : Option String) : HttpError :=
  HttpError.construct reg ⟨502, message, status⟩

/-- `class BadRequest extends HttpError` of the error-family module: fixes `statusCode := 400`,
forwards `message` and `status`. -/
def BadRequest (reg : Registry) (message status : Option String) : HttpError :=
  HttpError.construct reg ⟨400, message, status⟩

/-- `class Conflict extends HttpError` of the error-family module: fixes `statusCode := 409`,
forwards `message` and `status`. -/
def Conflict (reg : Registry) (message status : Option String) : HttpError :=
  HttpError.construct reg ⟨409, message, status⟩

/-- `class ExpectationFailed extends HttpError` of the error-family module: fixes `statusCode := 417`,
forwards `message` and `status`. -/
def ExpectationFailed (reg : Registry) (message status : Option String) : HttpError :=
  HttpError.construct reg ⟨417, message, status⟩

/-- `class FailedDependency extends HttpError` of the error-family module: fixes `statusCode := 424`,
forwards `message` and `status`. -/
def FailedDependency (reg : Registry) (message status : Option String) : HttpError :=
  HttpError.construct reg ⟨424, message, status⟩

/-- `class Forbidden extends HttpError` of the error-family module: fixes `statusCode := 403`,
forwards `message` and `status`. -/
def Forbidden (reg : Registry) (message status : Option String) : HttpError :=
  HttpError.construct reg ⟨403, message, status⟩

/-- `class GatewayTimeout extends HttpError` of the error-family module: fixes `statusCode := 504`,
forwards `message` and `status`. -/
def GatewayTimeout (reg : Registry) (message status : Option String) : HttpError :=
  HttpError.construct reg ⟨504, message, status⟩

/-- `class Gone extends HttpError` of the error-family module: fixes `statusCode := 410`,
forwards `message` and `status`. -/
def Gone (reg : Registry) (message status : Option String) : HttpError :=
  HttpError.construct reg ⟨410, message, status⟩

/-- `class HttpVersionNotSupported extends HttpError` of the error-family module: fixes `statusCode := 410`,
forwards `message` and `status`. -/
def HttpVersionNotSupported (reg : Registry) (message status : Option String) : HttpError :=
  HttpError.construct reg ⟨410, message, status⟩

/-- `class ImATeapot extends HttpError` of the error-family module: fixes `statusCode := 418`,
forwards `message` and `status`. -/
def ImATeapot (reg : Registry) (message status : Option String) : HttpError :=
  HttpError.construct reg ⟨418, message, status⟩

/-- `class InsufficientSpaceOnResource extends HttpError` of the error-family module: fixes `statusCode := 419`,
forwards `message` and `status`. -/
def InsufficientSpaceOnResource (reg : Registry) (message status : Option String) : HttpError :=
  HttpError.construct reg ⟨419, message, status⟩

/-- `class InsufficientStorage extends HttpError` of the error-family module: fixes `statusCode := 419`,
forwards `message` and `status`. -/
def InsufficientStorage (reg : Registry) (message status : Option String) : HttpError :=
  HttpError.construct reg ⟨419, message, status⟩

/-- `class InternalServerError extends HttpError` of the error-family module: fixes `statusCode := 500`,
forwards `message` and `status`. -/
def InternalServerError (reg : Registry) (message status : Option String) : HttpError :=
  HttpError.construct reg ⟨500, message, status⟩

/-- `class LengthRequired extends HttpError` of the error-family module: fixes `statusCode := 411`,
forwards `message` and `status`. -/
def LengthRequired (reg : Registry) (message status : Option String) : HttpError :=
  HttpError.construct reg ⟨411, message, status⟩

/-- `class Locked extends HttpError` of the error-family module: fixes `statusCode := 423`,
forwards `message` and `status`. -/
def Locked (reg : Registry) (message status : Option String) : HttpError :=
  HttpError.construct reg ⟨423, message, status⟩

/-- `class MethodNotAllowed extends HttpError` of the error-family module: fixes `statusCode := 405`,
forwards `message` and `status`. -/
def MethodNotAllowed (reg : Registry) (message status : Option String) : HttpError :=
  HttpError.construct reg ⟨405, message, status⟩

/-- `class NetworkAuthenticationRequired extends HttpError` of the error-family module: fixes `statusCode := 511`,
forwards `message` and `status`. -/
def NetworkAuthenticationRequired (reg : Registry) (message status : Option String) : HttpError :=
  HttpError.construct reg ⟨511, message, status⟩

/-- `class NotAcceptable extends HttpError` of the error-family module: fixes `statusCode := 406`,
forwards `message` and `status`. -/
def NotAcceptable (reg : Registry) (message status : Option String) : HttpError :=
  HttpError.construct reg ⟨406, message, status⟩

/-- `class NotFound extends HttpError` of the error-family module: fixes `statusCode := 404`,
forwards `message` and `status`. -/
def NotFound (reg : Registry) (message status : Option String) : HttpError :=
  HttpError.construct reg ⟨404, message, status⟩

/-- `class NotImplemented extends HttpError` of the error-family module: fixes `statusCode := 501`,
forwards `message` and `status`. -/
def NotImplemented (reg : Registry) (message status : Option String) : HttpError :=
  HttpError.construct reg ⟨501, message, status⟩

/-- `class PaymentRequired extends HttpError` of the error-family module: fixes `statusCode := 402`,
forwards `message` and `status`. -/
def PaymentRequired (reg : Registry) (message status : Option String) : HttpError :=
  HttpError.construct reg ⟨402, message, status⟩

/-- `class PreconditionFailed extends HttpError` of the error-family module: fixes `statusCode := 412`,
forwards `message` and `status`. -/
def PreconditionFailed (reg : Registry) (message status : Option String) : HttpError :=
  HttpError.construct reg ⟨412, message, status⟩

/-- `class PreconditionRequired extends HttpError` of the error-family module: fixes `statusCode := 428`,
forwards `message` and `status`. -/
def PreconditionRequired (reg : Registry) (message status : Option String) : HttpError :=
  HttpError.construct reg ⟨428, message, status⟩

/-- `class ProxyAuthenticationRequired extends HttpError` of the error-family module: fixes `statusCode := 407`,
forwards `message` and `status`. -/
def ProxyAuthenticationRequired (reg : Registry) (message status : Option String) : HttpError :=
  HttpError.construct reg ⟨407, message, status⟩

/-- `class RequestHeaderFieldsTooLarge extends HttpError` of the error-family module: fixes `statusCode := 431`,
forwards `message` and `status`. -/
def RequestHeaderFieldsTooLarge (reg : Registry) (message status : Option String) : HttpError :=
  HttpError.construct reg ⟨431, message, status⟩

/-- `class RequestTimeout extends HttpError` of the error-family module: fixes `statusCode := 408`,
forwards `message` and `status`. -/
def RequestTimeout (reg : Registry) (message status : Option String) : HttpError :=
  HttpError.construct reg ⟨408, message, status⟩

/-- `class RequestTooLong extends HttpError` of the error-family module: fixes `statusCode := 413`,
forwards `message` and `status`. -/
def RequestTooLong (reg : Registry) (message status : Option String) : HttpError :=
  HttpError.construct reg ⟨413, message, status⟩

/-- `class RequestURITooLong extends HttpError` of the error-family module: fixes `statusCode := 414`,
forwards `message` and `status`. -/
def RequestURITooLong (reg : Registry) (message status : Option String) : HttpError :=
  HttpError.construct reg ⟨414, message, status⟩

/-- `class RequestedRangeNotSatisfiable extends HttpError` of the error-family module: fixes `statusCode := 416`,
forwards `message` and `status`. -/
def RequestedRangeNotSatisfiable (reg : Registry) (message status : Option String) : HttpError :=
  HttpError.construct reg ⟨416, message, status⟩

/-- `class ServiceUnavailable extends HttpError` of the error-family module: fixes `statusCode := 503`,
forwards `message` and `status`. -/
def ServiceUnavailable (reg : Registry) (message status : Option String) : HttpError :=
  HttpError.construct reg ⟨503, message, status⟩

/-- `class TooManyRequests extends HttpError` of the error-family module: fixes `statusCode := 429`,
forwards `message` and `status`. -/
def TooManyRequests (reg : Registry) (message status : Option String) : HttpError :=
  HttpError.construct reg ⟨429, message, status⟩

/-- `class Unauthorized extends HttpError` of the error-family module: fixes `statusCode := 401`,
forwards `message` and `status`. -/
def Unauthorized (reg : Registry) (message status : Option String) : HttpError :=
  HttpError.construct reg ⟨401, message, status⟩

/-- `class UnprocessableEntity extends HttpError` of the error-family module: fixes `statusCode := 422`,
forwards `message` and `status`. -/
def UnprocessableEntity (reg : Registry) (message status : Option String) : HttpError :=
  HttpError.construct reg ⟨422, message, status⟩

/-- `class UnsupportedMediaType extends HttpError` of the error-family module: fixes `statusCode := 415`,
forwards `message` and `status`. -/
def UnsupportedMediaType (reg : Registry) (message status : Option String) : HttpError :=
  HttpError.construct reg ⟨415, message, status⟩

end Errors

/-- Embeds the custom variant of the README (src/unnamed/part_000):
`class ValidationError extends BadRequest` whose constructor calls
`super(message, 'Validation Error')` on the error-family `BadRequest`. -/
def ValidationError (reg : Registry) (message : Option String) : Errors.HttpError :=
  Errors.BadRequest reg message (some "Validation Error")

/-- A concrete registry used to instantiate the registry-parametric theorems on
sample inputs; it covers the handful of codes the examples mention and fails on
everything else. -/
def sampleRegistry : Registry := fun code =>
  if code = 200 then some "OK"
  else if code = 201 then some "Created"
  else if code = 400 then some "Bad Request"
  else if code = 410 then some "Gone"
  else none

/-! ### Helper lemmas -/

/-- Unfolding lemma: the resolved `status` of the root-module constructor. -/
lemma index_construct_status_eq (reg : Registry) (o : Options) :
    (Index.HttpResponse.construct reg o).status
      = match jsOrE o.status (getStatusText reg o.statusCode) with
        | Except.ok s => s
        | Except.error _ => "Unknown" := rfl

/-- Unfolding lemma: the resolved `message` of the root-module constructor is
the JS truthiness choice between the supplied message and the resolved status. -/
lemma index_construct_message_eq (reg : Registry) (o : Options) :
    (Index.HttpResponse.construct reg o).message
      = jsOr o.message (Index.HttpResponse.construct reg o).status := rfl

/-- Unfolding lemma: the resolved `status` of the error-family constructor. -/
lemma errors_construct_status_eq (reg : Registry) (o : Options) :
    (Errors.HttpError.construct reg o).status
      = match jsOrE o.status (getStatusText reg o.statusCode) with
        | Except.ok s => s
        | Except.error _ => "Unknown" := rfl

/-- Unfolding lemma: the resolved `message` of the error-family constructor. -/
lemma errors_construct_message_eq (reg : Registry) (o : Options) :
    (Errors.HttpError.construct reg o).message
      = jsOr o.message (Errors.HttpError.construct reg o).status := rfl

/-- The error-family and root-module constructors agree field by field. -/
lemma construct_fields_agree (reg : Registry) (o : Options) :
    (Errors.HttpError.construct reg o).statusCode
        = (Index.HttpResponse.construct reg o).statusCode
    ∧ (Errors.HttpError.construct reg o).status
        = (Index.HttpResponse.construct reg o).status
    ∧ (Errors.HttpError.construct reg o).message
        = (Index.HttpResponse.construct reg o).message :=
  ⟨rfl, rfl, rfl⟩

/-! ### Claim theorems -/

/-- C1: for every construction input, the resulting Outcome's `status` field is
the supplied status verbatim when a non-empty one is provided; otherwise the
registry's label for the supplied `statusCode` when the registry has one;
otherwise the literal `"Unknown"`.  Stated for both the response family and the
error family. -/
theorem C1_status_resolution (reg : Registry) (o : Options) :
    (∀ s, o.status = some s → s ≠ "" →
      (Index.HttpResponse.construct reg o).status = s
        ∧ (Errors.HttpError.construct reg o).status = s)
    ∧ ((o.status = none ∨ o.status = some "") →
        ∀ label, reg o.statusCode = some label →
          (Index.HttpResponse.construct reg o).status = label
            ∧ (Errors.HttpError.construct reg o).status = label)
    ∧ ((o.status = none ∨ o.status = some "") →
        reg o.statusCode = none →
          (Index.HttpResponse.construct reg o).status = "Unknown"
            ∧ (Errors.HttpError.construct reg o).status = "Unknown") := by
  refine ⟨?_, ?_, ?_⟩
  · intro s hs hne
    rw [index_construct_status_eq, errors_construct_status_eq]
    simp [jsOrE, hs, hne]
  · rintro (h | h) label hl <;>
      rw [index_construct_status_eq, errors_construct_status_eq] <;>
      simp [jsOrE, getStatusText, h, hl]
  · rintro (h | h) hl <;>
      rw [index_construct_status_eq, errors_construct_status_eq] <;>
      simp [jsOrE, getStatusText, h, hl]

/-- C1 witness: concrete instances of each branch of the status resolution,
under the sample registry. -/
theorem C1_status_resolution_witness :
    ((Index.HttpResponse.construct sampleRegistry ⟨400, none, some "Custom"⟩).status = "Custom")
    ∧ ((Index.HttpResponse.construct sampleRegistry ⟨400, none, none⟩).status = "Bad Request")
    ∧ ((Index.HttpResponse.construct sampleRegistry ⟨999, none, none⟩).status = "Unknown") :=
  ⟨((C1_status_resolution sampleRegistry ⟨400, none, some "Custom"⟩).1
      "Custom" rfl (by decide)).1,
   ((C1_status_resolution sampleRegistry ⟨400, none, none⟩).2.1
      (Or.inl rfl) "Bad Request" (by decide)).1,
   ((C1_status_resolution sampleRegistry ⟨999, none, none⟩).2.2
      (Or.inl rfl) (by decide)).1⟩

/-- C2: for every construction input, the resulting Outcome's `message` field
equals the supplied message verbatim when a non-empty one is provided, and
otherwise equals the status value resolved by the status-resolution step (so
message defaulting happens strictly after status defaulting).  Stated for both
families. -/
theorem C2_message_resolution (reg : Registry) (o : Options) :
    (∀ m, o.message = some m → m ≠ "" →
      (Index.HttpResponse.construct reg o).message = m
        ∧ (Errors.HttpError.construct reg o).message = m)
    ∧ ((o.message = none ∨ o.message = some "") →
        (Index.HttpResponse.construct reg o).message
            = (Index.HttpResponse.construct reg o).status
          ∧ (Errors.HttpError.construct reg o).message
            = (Errors.HttpError.construct reg o).status) := by
  refine ⟨?_, ?_⟩
  · intro m hm hne
    rw [index_construct_message_eq, errors_construct_message_eq]
    simp [jsOr, hm, hne]
  · rintro (h | h) <;>
      rw [index_construct_message_eq, errors_construct_message_eq] <;>
      simp [jsOr, h]

/-- C2 witness: with no message supplied, the message equals the resolved
status, at a registered and at an unregistered code; a supplied non-empty
message is kept verbatim. -/
theorem C2_message_resolution_witness :
    ((Index.HttpResponse.construct sampleRegistry ⟨201, some "User Created!", none⟩).message
        = "User Created!")
    ∧ ((Index.HttpResponse.construct sampleRegistry ⟨201, none, none⟩).message
        = (Index.HttpResponse.construct sampleRegistry ⟨201, none, none⟩).status)
    ∧ ((Index.HttpResponse.construct sampleRegistry ⟨999, none, none⟩).message
        = (Index.HttpResponse.construct sampleRegistry ⟨999, none, none⟩).status) :=
  ⟨((C2_message_resolution sampleRegistry ⟨201, some "User Created!", none⟩).1
      "User Created!" rfl (by decide)).1,
   ((C2_message_resolution sampleRegistry ⟨201, none, none⟩).2 (Or.inl rfl)).1,
   ((C2_message_resolution sampleRegistry ⟨999, none, none⟩).2 (Or.inl rfl)).1⟩

/-- C3: constructing with the `statusCode` field absent from the options is
rejected with `InvalidInput` instead of producing an Outcome — the
`interface Options` contract makes `statusCode` mandatory — while any
combination of absent `message` and `status` passes the contract and reaches
the constructor. -/
theorem C3_statusCode_mandatory :
    (∀ m s : Option String, checkOptions ⟨none, m, s⟩ = Except.error "InvalidInput")
    ∧ (∀ (c : Int) (m s : Option String),
        checkOptions ⟨some c, m, s⟩ = Except.ok ⟨c, m, s⟩) :=
  ⟨fun _ _ => rfl, fun _ _ _ => rfl⟩

/-- C4: whenever the registry lookup fails for the supplied `statusCode` (the
code is unregistered or the lookup faults — both are `none` in the model),
construction still completes, with `status` the single fallback `"Unknown"`,
and with `message` also `"Unknown"` when no message is supplied.  Stated for
both families. -/
theorem C4_lookup_failure_absorbed (reg : Registry) (o : Options)
    (hfail : reg o.statusCode = none)
    (hst : o.status = none ∨ o.status = some "") :
    ((Index.HttpResponse.construct reg o).status = "Unknown"
      ∧ (Errors.HttpError.construct reg o).status = "Unknown")
    ∧ ((o.message = none ∨ o.message = some "") →
        (Index.HttpResponse.construct reg o).message = "Unknown"
          ∧ (Errors.HttpError.construct reg o).message = "Unknown") := by
  have hstat : (Index.HttpResponse.construct reg o).status = "Unknown"
      ∧ (Errors.HttpError.construct reg o).status = "Unknown" := by
    rcases hst with h | h <;>
      rw [index_construct_status_eq, errors_construct_status_eq] <;>
      simp [jsOrE, getStatusText, h, hfail]
  refine ⟨hstat, ?_⟩
  rintro (h | h) <;>
    rw [index_construct_message_eq, errors_construct_message_eq, hstat.1, hstat.2] <;>
    simp [jsOr, h]

/-- C4 witness: the unregistered code 999 with nothing else supplied yields
`"Unknown"` for both fields, in both families. -/
theorem C4_lookup_failure_absorbed_witness :
    ((Index.HttpResponse.construct sampleRegistry ⟨999, none, none⟩).status = "Unknown"
      ∧ (Errors.HttpError.construct sampleRegistry ⟨999, none, none⟩).status = "Unknown")
    ∧ ((Index.HttpResponse.construct sampleRegistry ⟨999, none, none⟩).message = "Unknown"
      ∧ (Errors.HttpError.construct sampleRegistry ⟨999, none, none⟩).message = "Unknown") :=
  ⟨(C4_lookup_failure_absorbed sampleRegistry ⟨999, none, none⟩
      (by decide) (Or.inl rfl)).1,
   (C4_lookup_failure_absorbed sampleRegistry ⟨999, none, none⟩
      (by decide) (Or.inl rfl)).2 (Or.inl rfl)⟩

/-- C6: `HttpVersionNotSupported` fixes `statusCode` to 410 in both catalogs —
the same code as `Gone` — and not to 505. -/
theorem C6_httpVersionNotSupported_uses_410 (reg : Registry) (m s : Option String) :
    (Index.HttpVersionNotSupported reg m s).statusCode = 410
    ∧ (Errors.HttpVersionNotSupported reg m s).statusCode = 410
    ∧ (Index.HttpVersionNotSupported reg m s).statusCode = (Index.Gone reg m s).statusCode
    ∧ (Errors.HttpVersionNotSupported reg m s).statusCode = (Errors.Gone reg m s).statusCode
    ∧ (Index.HttpVersionNotSupported reg m s).statusCode ≠ 505
    ∧ (Errors.HttpVersionNotSupported reg m s).statusCode ≠ 505 :=
  ⟨rfl, rfl, rfl, rfl,
   fun h => absurd (show (410 : Int) = 505 from h) (by decide),
   fun h => absurd (show (410 : Int) = 505 from h) (by decide)⟩

/-- C7: the README's custom variant — composing over the error-family
`BadRequest` with the fixed custom label `"Validation Error"` — yields, when no
message is given, exactly `{statusCode := 400, status := "Validation Error",
message := "Validation Error"}`, for every registry (so independently of what
label siblings sharing code 400 would get from the registry). -/
theorem C7_custom_variant (reg : Registry) :
    (ValidationError reg none).statusCode = 400
    ∧ (ValidationError reg none).status = "Validation Error"
    ∧ (ValidationError reg none).message = "Validation Error"
    ∧ ValidationError reg none
        = (⟨400, "Validation Error", "Validation Error"⟩ : Errors.HttpError) := by
  refine ⟨rfl, ?_, ?_, ?_⟩ <;>
    simp [ValidationError, Errors.BadRequest, Errors.HttpError.construct, jsOrE, jsOr]

/-- C9: on every options input, the error-family constructor `HttpError` and
the response-family constructor `HttpResponse` produce outcomes with identical
`statusCode`, `status` and `message` field values. -/
theorem C9_families_agree (reg : Registry) (o : Options) :
    (Errors.HttpError.construct reg o).statusCode
        = (Index.HttpResponse.construct reg o).statusCode
    ∧ (Errors.HttpError.construct reg o).status
        = (Index.HttpResponse.construct reg o).status
    ∧ (Errors.HttpError.construct reg o).message
        = (Index.HttpResponse.construct reg o).message :=
  ⟨rfl, rfl, rfl⟩

/-- C10: in both catalogs `InsufficientSpaceOnResource` and
`InsufficientStorage` are extensionally equal — both fix `statusCode` to 419,
and `InsufficientStorage` does not use 507. -/
theorem C10_insufficient_variants_equal (reg : Registry) (m s : Option String) :
    Index.InsufficientSpaceOnResource reg m s = Index.InsufficientStorage reg m s
    ∧ Errors.InsufficientSpaceOnResource reg m s = Errors.InsufficientStorage reg m s
    ∧ (Index.InsufficientStorage reg m s).statusCode = 419
    ∧ (Errors.InsufficientStorage reg m s).statusCode = 419
    ∧ (Index.InsufficientStorage reg m s).statusCode ≠ 507
    ∧ (Errors.InsufficientStorage reg m s).statusCode ≠ 507 :=
  ⟨rfl, rfl, rfl, rfl,
   fun h => absurd (show (419 : Int) = 507 from h) (by decide),
   fun h => absurd (show (419 : Int) = 507 from h) (by decide)⟩

/-- C5 counterexample: the response-family variant `Created` exposes no
`status` parameter — no invocation of it can produce the status label
`"Validation Error"`, although the generic constructor at the same fixed code
201 can; so not every named variant has the signature
`(message?, status?) -> Outcome`. -/
theorem C5_named_variant_signature_counterexample :
    (Responses.HttpResponse.construct sampleRegistry
        ⟨201, none, some "Validation Error"⟩).status = "Validation Error"
    ∧ ¬ ∃ m : Option String,
        (Responses.Created sampleRegistry m).status = "Validation Error" := by
  constructor
  · decide
  · rintro ⟨m, h⟩
    have hc : (Responses.Created sampleRegistry m).status = "Created" := rfl
    rw [hc] at h
    exact absurd h (by decide)

/-- C5 (amended): every error-family variant, and every 4xx/5xx variant of the
response family, has signature `(message?, status?)` and delegates to the
generic construction rule with its fixed `statusCode`; the informational,
success and redirect variants of the response-family catalogs (both in the
root module and in `src/responses.ts`) expose only `(message?)` and always
forward an absent `status`. -/
theorem C5_named_variant_signatures_amended (reg : Registry) (m s : Option String) :
    Errors.BadGateway reg m s = Errors.HttpError.construct reg ⟨502, m, s⟩
    ∧
    Errors.BadRequest reg m s = Errors.HttpError.construct reg ⟨400, m, s⟩
    ∧
    Errors.Conflict reg m s = Errors.HttpError.construct reg ⟨409, m, s⟩
    ∧
    Errors.ExpectationFailed reg m s = Errors.HttpError.construct reg ⟨417, m, s⟩
    ∧
    Errors.FailedDependency reg m s = Errors.HttpError.construct reg ⟨424, m, s⟩
    ∧
    Errors.Forbidden reg m s = Errors.HttpError.construct reg ⟨403, m, s⟩
    ∧
    Errors.GatewayTimeout reg m s = Errors.HttpError.construct reg ⟨504, m, s⟩
    ∧
    Errors.Gone reg m s = Errors.HttpError.construct reg ⟨410, m, s⟩
    ∧
    Errors.HttpVersionNotSupported reg m s = Errors.HttpError.construct reg ⟨410, m, s⟩
    ∧
    Errors.ImATeapot reg m s = Errors.HttpError.construct reg ⟨418, m, s⟩
    ∧
    Errors.InsufficientSpaceOnResource reg m s = Errors.HttpError.construct reg ⟨419, m, s⟩
    ∧
    Errors.InsufficientStorage reg m s = Errors.HttpError.construct reg ⟨419, m, s⟩
    ∧
    Errors.InternalServerError reg m s = Errors.HttpError.construct reg ⟨500, m, s⟩
    ∧
    Errors.LengthRequired reg m s = Errors.HttpError.construct reg ⟨411, m, s⟩
    ∧
    Errors.Locked reg m s = Errors.HttpError.construct reg ⟨423, m, s⟩
    ∧
    Errors.MethodNotAllowed reg m s = Errors.HttpError.construct reg ⟨405, m, s⟩
    ∧
    Errors.NetworkAuthenticationRequired reg m s = Errors.HttpError.construct reg ⟨511, m, s⟩
    ∧
    Errors.NotAcceptable reg m s = Errors.HttpError.construct reg ⟨406, m, s⟩
    ∧
    Errors.NotFound reg m s = Errors.HttpError.construct reg ⟨404, m, s⟩
    ∧
    Errors.NotImplemented reg m s = Errors.HttpError.construct reg ⟨501, m, s⟩
    ∧
    Errors.PaymentRequired reg m s = Errors.HttpError.construct reg ⟨402, m, s⟩
    ∧
    Errors.PreconditionFailed reg m s = Errors.HttpError.construct reg ⟨412, m, s⟩
    ∧
    Errors.PreconditionRequired reg m s = Errors.HttpError.construct reg ⟨428, m, s⟩
    ∧
    Errors.ProxyAuthenticationRequired reg m s = Errors.HttpError.construct reg ⟨407, m, s⟩
    ∧
    Errors.RequestHeaderFieldsTooLarge reg m s = Errors.HttpError.construct reg ⟨431, m, s⟩
    ∧
    Errors.RequestTimeout reg m s = Errors.HttpError.construct reg ⟨408, m, s⟩
    ∧
    Errors.RequestTooLong reg m s = Errors.HttpError.construct reg ⟨413, m, s⟩
    ∧
    Errors.RequestURITooLong reg m s = Errors.HttpError.construct reg ⟨414, m, s⟩
    ∧
    Errors.RequestedRangeNotSatisfiable reg m s = Errors.HttpError.construct reg ⟨416, m, s⟩
    ∧
    Errors.ServiceUnavailable reg m s = Errors.HttpError.construct reg ⟨503, m, s⟩
    ∧
    Errors.TooManyRequests reg m s = Errors.HttpError.construct reg ⟨429, m, s⟩
    ∧
    Errors.Unauthorized reg m s = Errors.HttpError.construct reg ⟨401, m, s⟩
    ∧
    Errors.UnprocessableEntity reg m s = Errors.HttpError.construct reg ⟨422, m, s⟩
    ∧
    Errors.UnsupportedMediaType reg m s = Errors.HttpError.construct reg ⟨415, m, s⟩
    ∧
    Index.Continue reg m = Index.HttpResponse.construct reg ⟨100, m, none⟩
    ∧
    Index.Created reg m = Index.HttpResponse.construct reg ⟨201, m, none⟩
    ∧
    Index.MovedPermanently reg m = Index.HttpResponse.construct reg ⟨301, m, none⟩
    ∧
    Index.MovedTemporarily reg m = Index.HttpResponse.construct reg ⟨302, m, none⟩
    ∧
    Index.MultiStatus reg m = Index.HttpResponse.construct reg ⟨207, m, none⟩
    ∧
    Index.MultipleChoices reg m = Index.HttpResponse.construct reg ⟨300, m, none⟩
    ∧
    Index.NoContent reg m = Index.HttpResponse.construct reg ⟨204, m, none⟩
    ∧
    Index.NonAuthoritativeInformation reg m = Index.HttpResponse.construct reg ⟨203, m, none⟩
    ∧
    Index.NotModified reg m = Index.HttpResponse.construct reg ⟨304, m, none⟩
    ∧
    Index.Success reg m = Index.HttpResponse.construct reg ⟨200, m, none⟩
    ∧
    Index.PartialContent reg m = Index.HttpResponse.construct reg ⟨206, m, none⟩
    ∧
    Index.PermanentRedirect reg m = Index.HttpResponse.construct reg ⟨308, m, none⟩
    ∧
    Index.Processing reg m = Index.HttpResponse.construct reg ⟨102, m, none⟩
    ∧
    Index.ResetContent reg m = Index.HttpResponse.construct reg ⟨205, m, none⟩
    ∧
    Index.SeeOther reg m = Index.HttpResponse.construct reg ⟨303, m, none⟩
    ∧
    Index.SwitchingProtocols reg m = Index.HttpResponse.construct reg ⟨101, m, none⟩
    ∧
    Index.TemporaryRedirect reg m = Index.HttpResponse.construct reg ⟨307, m, none⟩
    ∧
    Index.BadGateway reg m s = Index.HttpResponse.construct reg ⟨502, m, s⟩
    ∧
    Index.BadRequest reg m s = Index.HttpResponse.construct reg ⟨400, m, s⟩
    ∧
    Index.Conflict reg m s = Index.HttpResponse.construct reg ⟨409, m, s⟩
    ∧
    Index.ExpectationFailed reg m s = Index.HttpResponse.construct reg ⟨417, m, s⟩
    ∧
    Index.FailedDependency reg m s = Index.HttpResponse.construct reg ⟨424, m, s⟩
    ∧
    Index.Forbidden reg m s = Index.HttpResponse.construct reg ⟨403, m, s⟩
    ∧
    Index.GatewayTimeout reg m s = Index.HttpResponse.construct reg ⟨504, m, s⟩
    ∧
    Index.Gone reg m s = Index.HttpResponse.construct reg ⟨410, m, s⟩
    ∧
    Index.HttpVersionNotSupported reg m s = Index.HttpResponse.construct reg ⟨410, m, s⟩
    ∧
    Index.ImATeapot reg m s = Index.HttpResponse.construct reg ⟨418, m, s⟩
    ∧
    Index.InsufficientSpaceOnResource reg m s = Index.HttpResponse.construct reg ⟨419, m, s⟩
    ∧
    Index.InsufficientStorage reg m s = Index.HttpResponse.construct reg ⟨419, m, s⟩
    ∧
    Index.InternalServerError reg m s = Index.HttpResponse.construct reg ⟨500, m, s⟩
    ∧
    Index.LengthRequired reg m s = Index.HttpResponse.construct reg ⟨411, m, s⟩
    ∧
    Index.Locked reg m s = Index.HttpResponse.construct reg ⟨423, m, s⟩
    ∧
    Index.MethodNotAllowed reg m s = Index.HttpResponse.construct reg ⟨405, m, s⟩
    ∧
    Index.NetworkAuthenticationRequired reg m s = Index.HttpResponse.construct reg ⟨511, m, s⟩
    ∧
    Index.NotAcceptable reg m s = Index.HttpResponse.construct reg ⟨406, m, s⟩
    ∧
    Index.NotFound reg m s = Index.HttpResponse.construct reg ⟨404, m, s⟩
    ∧
    Index.NotImplemented reg m s = Index.HttpResponse.construct reg ⟨501, m, s⟩
    ∧
    Index.PaymentRequired reg m s = Index.HttpResponse.construct reg ⟨402, m, s⟩
    ∧
    Index.PreconditionFailed reg m s = Index.HttpResponse.construct reg ⟨412, m, s⟩
    ∧
    Index.PreconditionRequired reg m s = Index.HttpResponse.construct reg ⟨428, m, s⟩
    ∧
    Index.ProxyAuthenticationRequired reg m s = Index.HttpResponse.construct reg ⟨407, m, s⟩
    ∧
    Index.RequestHeaderFieldsTooLarge reg m s = Index.HttpResponse.construct reg ⟨431, m, s⟩
    ∧
    Index.RequestTimeout reg m s = Index.HttpResponse.construct reg ⟨408, m, s⟩
    ∧
    Index.RequestTooLong reg m s = Index.HttpResponse.construct reg ⟨413, m, s⟩
    ∧
    Index.RequestURITooLong reg m s = Index.HttpResponse.construct reg ⟨414, m, s⟩
    ∧
    Index.RequestedRangeNotSatisfiable reg m s = Index.HttpResponse.construct reg ⟨416, m, s⟩
    ∧
    Index.ServiceUnavailable reg m s = Index.HttpResponse.construct reg ⟨503, m, s⟩
    ∧
    Index.TooManyRequests reg m s = Index.HttpResponse.construct reg ⟨429, m, s⟩
    ∧
    Index.Unauthorized reg m s = Index.HttpResponse.construct reg ⟨401, m, s⟩
    ∧
    Index.UnprocessableEntity reg m s = Index.HttpResponse.construct reg ⟨422, m, s⟩
    ∧
    Index.UnsupportedMediaType reg m s = Index.HttpResponse.construct reg ⟨415, m, s⟩
    ∧
    Responses.Continue reg m = Responses.HttpResponse.construct reg ⟨100, m, none⟩
    ∧
    Responses.Created reg m = Responses.HttpResponse.construct reg ⟨201, m, none⟩
    ∧
    Responses.MovedPermanently reg m = Responses.HttpResponse.construct reg ⟨301, m, none⟩
    ∧
    Responses.MovedTemporarily reg m = Responses.HttpResponse.construct reg ⟨302, m, none⟩
    ∧
    Responses.MultiStatus reg m = Responses.HttpResponse.construct reg ⟨207, m, none⟩
    ∧
    Responses.MultipleChoices reg m = Responses.HttpResponse.construct reg ⟨300, m, none⟩
    ∧
    Responses.NoContent reg m = Responses.HttpResponse.construct reg ⟨204, m, none⟩
    ∧
    Responses.NonAuthoritativeInformation reg m = Responses.HttpResponse.construct reg ⟨203, m, none⟩
    ∧
    Responses.NotModified reg m = Responses.HttpResponse.construct reg ⟨304, m, none⟩
    ∧
    Responses.Success reg m = Responses.HttpResponse.construct reg ⟨200, m, none⟩
    ∧
    Responses.PartialContent reg m = Responses.HttpResponse.construct reg ⟨206, m, none⟩
    ∧
    Responses.PermanentRedirect reg m = Responses.HttpResponse.construct reg ⟨308, m, none⟩
    ∧
    Responses.Processing reg m = Responses.HttpResponse.construct reg ⟨102, m, none⟩
    ∧
    Responses.ResetContent reg m = Responses.HttpResponse.construct reg ⟨205, m, none⟩
    ∧
    Responses.SeeOther reg m = Responses.HttpResponse.construct reg ⟨303, m, none⟩
    ∧
    Responses.SwitchingProtocols reg m = Responses.HttpResponse.construct reg ⟨101, m, none⟩
    ∧
    Responses.TemporaryRedirect reg m = Responses.HttpResponse.construct reg ⟨307, m, none⟩ :=
  ⟨rfl, rfl, rfl, rfl, rfl, rfl, rfl, rfl, rfl, rfl, rfl, rfl, rfl, rfl, rfl, rfl, rfl, rfl, rfl, rfl, rfl, rfl, rfl, rfl, rfl, rfl, rfl, rfl, rfl, rfl, rfl, rfl, rfl, rfl, rfl, rfl, rfl, rfl, rfl, rfl, rfl, rfl, rfl, rfl, rfl, rfl, rfl, rfl, rfl, rfl, rfl, rfl, rfl, rfl, rfl, rfl, rfl, rfl, rfl, rfl, rfl, rfl, rfl, rfl, rfl, rfl, rfl, rfl, rfl, rfl, rfl, rfl, rfl, rfl, rfl, rfl, rfl, rfl, rfl, rfl, rfl, rfl, rfl, rfl, rfl, rfl, rfl, rfl, rfl, rfl, rfl, rfl, rfl, rfl, rfl, rfl, rfl, rfl, rfl, rfl, rfl, rfl⟩

/-- Every label held by the sample registry is non-empty. -/
lemma sampleRegistry_labels_nonempty :
    ∀ c label, sampleRegistry c = some label → label ≠ "" := by
  intro c label h hlab
  subst hlab
  unfold sampleRegistry at h
  split_ifs at h <;>
    exact absurd (Option.some.inj h) (by decide)

/-- Helper for C8: under a registry with only non-empty labels, the resolved
status of the root-module constructor is never empty. -/
lemma construct_status_ne_empty (reg : Registry) (o : Options)
    (hreg : ∀ c label, reg c = some label → label ≠ "") :
    (Index.HttpResponse.construct reg o).status ≠ "" := by
  obtain ⟨code, msg, st⟩ := o
  rw [index_construct_status_eq]
  rcases st with _ | s
  · cases hr : reg code with
    | none => simp only [jsOrE, getStatusText, hr]; decide
    | some label =>
        simp only [jsOrE, getStatusText, hr]
        exact hreg code label hr
  · by_cases hs : s = ""
    · subst hs
      cases hr : reg code with
      | none => simp only [jsOrE, getStatusText, hr, if_pos]; decide
      | some label =>
          simp only [jsOrE, getStatusText, hr, if_pos]
          exact hreg code label hr
    · simp [jsOrE, hs]

/-- C8: under the precondition that the registry returns only non-empty
labels, every constructed outcome has a non-empty `status` and a non-empty
`message`, in both families — in particular an explicitly supplied empty
string never survives into either field. -/
theorem C8_fields_nonempty (reg : Registry) (o : Options)
    (hreg : ∀ c label, reg c = some label → label ≠ "") :
    ((Index.HttpResponse.construct reg o).status ≠ ""
      ∧ (Index.HttpResponse.construct reg o).message ≠ "")
    ∧ ((Errors.HttpError.construct reg o).status ≠ ""
      ∧ (Errors.HttpError.construct reg o).message ≠ "") := by
  have hIs := construct_status_ne_empty reg o hreg
  have hIm : (Index.HttpResponse.construct reg o).message ≠ "" := by
    rw [index_construct_message_eq]
    rcases hm : o.message with _ | m
    · simpa only [jsOr] using hIs
    · by_cases hme : m = ""
      · subst hme
        simpa only [jsOr, if_pos] using hIs
      · simp [jsOr, hme]
  have hEs : (Errors.HttpError.construct reg o).status ≠ "" := by
    rw [(construct_fields_agree reg o).2.1]; exact hIs
  have hEm : (Errors.HttpError.construct reg o).message ≠ "" := by
    rw [(construct_fields_agree reg o).2.2]; exact hIm
  exact ⟨⟨hIs, hIm⟩, ⟨hEs, hEm⟩⟩

/-- C8 witness: explicitly supplied empty `message` and `status` at code 400
under the sample registry still produce non-empty fields in both families. -/
theorem C8_fields_nonempty_witness :
    ((Index.HttpResponse.construct sampleRegistry ⟨400, some "", some ""⟩).status ≠ ""
      ∧ (Index.HttpResponse.construct sampleRegistry ⟨400, some "", some ""⟩).message ≠ "")
    ∧ ((Errors.HttpError.construct sampleRegistry ⟨400, some "", some ""⟩).status ≠ ""
      ∧ (Errors.HttpError.construct sampleRegistry ⟨400, some "", some ""⟩).message ≠ "") :=
  C8_fields_nonempty sampleRegistry ⟨400, some "", some ""⟩ sampleRegistry_labels_nonempty

